import Mathlib

/-!
Verification development for the folder aggregator
(`src/sharepoint_aggregator.py`): a shallow embedding of the
discovery / extraction / aggregation / export pipeline, followed by
theorems about the embedded definitions.

Conventions of the embedding:
* A spreadsheet cell value is an `Option CellValue` (`none` = blank cell).
* A loaded workbook is a total map from (row, column-letter) to
  `Except String (Option CellValue)`; an `Except.error` models a Python
  exception raised while reading that cell, and `Except.error` as the
  result of loading models `openpyxl.load_workbook` raising.
* Python functions that print diagnostics and return a fallback value are
  embedded as functions returning the value together with the list of
  diagnostic messages they print.
-/

namespace FolderAggregator

/-! ### String helpers mirroring the Python string / pathlib operations -/

/-- Python `str.lower()` (per-character, as used on ASCII file names). -/
def strLower (s : String) : String := ⟨s.data.map Char.toLower⟩

/-- Python `str.startswith(p)`. -/
def strStartsWith (s p : String) : Bool := p.data.isPrefixOf s.data

/-- Python `str.endswith(p)`. -/
def strEndsWith (s p : String) : Bool := p.data.isSuffixOf s.data

/-- Index of the last `'.'` in a character list (Python `str.rfind('.')`),
`none` when there is no dot. -/
def rfindDot (cs : List Char) : Option Nat :=
  ((List.range cs.length).filter (fun i => cs.getD i ' ' = '.')).getLast?

/-- Python `pathlib.PurePath.suffix` of a file *name*: the substring from the
last dot, provided that dot is neither the first nor the last character;
otherwise the empty string. -/
def pathSuffix (name : String) : String :=
  match rfindDot name.data with
  | none => ""
  | some i => if 0 < i && i + 1 < name.data.length then ⟨name.data.drop i⟩ else ""

/-! ### Cell and workbook model -/

/-- A non-blank spreadsheet cell value (text, number, boolean). -/
inductive CellValue where
  | str (s : String)
  | num (n : Int)
  | boolV (b : Bool)
  deriving DecidableEq, Repr

/-- A loaded workbook: reading cell (row, column) either yields the cell's
value (`none` = blank) or raises (`Except.error`). -/
structure Workbook where
  cell : Nat → String → Except String (Option CellValue)

/-! ### File filters (`LocalFolderProcessor` / `SharePointConnector`) -/

/-- The local filter of `LocalFolderProcessor.get_excel_files_in_folder`:
`file.is_file() and file.suffix.lower() in ['.xlsx', '.xls'] and not
file.name.startswith('~$')`. -/
def localIsExcelFile (isFile : Bool) (name : String) : Bool :=
  isFile &&
    (strLower (pathSuffix name) = ".xlsx" || strLower (pathSuffix name) = ".xls") &&
    !(strStartsWith name "~$")

/-- The remote filter of `SharePointConnector.get_excel_files_in_folder`:
`file_name.endswith(('.xlsx', '.xls')) and not file_name.startswith('~$')`.
Note `str.endswith` is case-sensitive. -/
def remoteIsExcelFile (name : String) : Bool :=
  (strEndsWith name ".xlsx" || strEndsWith name ".xls") &&
    !(strStartsWith name "~$")

/-- Modelled from the spec: the spec's own criterion for a genuine data
file — "extensions `.xlsx`/`.xls` (case-insensitive), excluding
temporary-file name markers". Kept separate from the two code filters so
they can be compared against it. -/
def ciExcelKeep (name : String) : Bool :=
  (strEndsWith (strLower name) ".xlsx" || strEndsWith (strLower name) ".xls") &&
    !(strStartsWith name "~$")

/-! ### Record extractor (`QuestionnaireExtractor.extract_data`) -/

/-- One entry of the `questions_answers` list built by `extract_data`:
the dict `\x7b'question': ..., 'answer': ..., 'comment': ...\x7d`. -/
structure QA where
  question : Option CellValue
  answer : Option CellValue
  comment : Option CellValue
  deriving DecidableEq, Repr

/-- The dict returned by a successful `extract_data` call. -/
structure QuestionnaireRecord where
  source_folder : String
  application : Option CellValue
  responsible : Option CellValue
  deputy : Option CellValue
  questions_answers : List QA
  deriving DecidableEq, Repr

/-- The loop `for row in range(3, 20)` of `extract_data`, reading columns
B, C, D of `n` consecutive rows starting at `row`; the first failing cell
read aborts the whole loop (a raised exception). -/
def readRows (wb : Workbook) : Nat → Nat → Except String (List QA)
  | _, 0 => .ok []
  | row, n + 1 =>
    match wb.cell row "B" with
    | .error e => .error e
    | .ok question =>
      match wb.cell row "C" with
      | .error e => .error e
      | .ok answer =>
        match wb.cell row "D" with
        | .error e => .error e
        | .ok comment =>
          match readRows wb (row + 1) n with
          | .error e => .error e
          | .ok rest => .ok (⟨question, answer, comment⟩ :: rest)

/-- The body of `extract_data`'s `try` block after a successful
`load_workbook`: metadata from B1/C1/D1, then rows 3–19. -/
def extractBody (wb : Workbook) (source_folder : String) :
    Except String QuestionnaireRecord :=
  match wb.cell 1 "B" with
  | .error e => .error e
  | .ok application =>
    match wb.cell 1 "C" with
    | .error e => .error e
    | .ok responsible =>
      match wb.cell 1 "D" with
      | .error e => .error e
      | .ok deputy =>
        match readRows wb 3 17 with
        | .error e => .error e
        | .ok qas => .ok ⟨source_folder, application, responsible, deputy, qas⟩

/-- What one `extract_data` call does: its return value (`none` models the
Python `return None` of the `except` branch), whether `workbook.close()`
was executed, and the error messages printed. -/
structure ExtractResult where
  result : Option QuestionnaireRecord
  closed : Bool
  errors : List String
  deriving DecidableEq, Repr

/-- The message printed by `extract_data`'s `except` branch. -/
def errMsg (file_path e : String) : String :=
  "Error extracting data from " ++ file_path ++ ": " ++ e

/-- `QuestionnaireExtractor.extract_data`, with the result of
`openpyxl.load_workbook` supplied as an `Except`. `workbook.close()` is
the statement placed after all the reads and before the `return`, so it
runs exactly when every read succeeded. -/
def extract_data (load : Except String Workbook)
    (file_path source_folder : String) : ExtractResult :=
  match load with
  | .error e => ⟨none, false, [errMsg file_path e]⟩
  | .ok wb =>
    match extractBody wb source_folder with
    | .ok rec => ⟨some rec, true, []⟩
    | .error e => ⟨none, false, [errMsg file_path e]⟩

/-! ### Aggregator (`DataAggregator`) -/

/-- `DataAggregator.add_questionnaire`: `if data: self.all_data.append(data)`.
The argument is the value returned by `extract_data` (`none` on failure). -/
def add_questionnaire (all_data : List QuestionnaireRecord)
    (data : Option QuestionnaireRecord) : List QuestionnaireRecord :=
  match data with
  | some d => all_data ++ [d]
  | none => all_data

/-! ### Exporter (`DataAggregator.export_to_excel`) -/

/-- The `for i, qa in enumerate(data['questions_answers'], start=1):
row[f'Qi'] = qa['answer']` loop: answer columns, keys `Q1`, `Q2`, …,
as an insertion-ordered association list (a Python dict with fresh keys). -/
def qCols : Nat → List QA → List (String × Option CellValue)
  | _, [] => []
  | i, qa :: rest => ("Q" ++ toString i, qa.answer) :: qCols (i + 1) rest

/-- The comment-column loop: keys `COMM Q1`, `COMM Q2`, …. -/
def commCols : Nat → List QA → List (String × Option CellValue)
  | _, [] => []
  | i, qa :: rest => ("COMM Q" ++ toString i, qa.comment) :: commCols (i + 1) rest

/-- The row dict built for one record inside `export_to_excel`: the four
metadata keys in insertion order, then the answer keys, then the comment
keys. -/
def buildRow (d : QuestionnaireRecord) : List (String × Option CellValue) :=
  [("Application", d.application), ("Answered", d.responsible),
   ("App Responsible", d.responsible), ("Deputy", d.deputy)]
  ++ qCols 1 d.questions_answers ++ commCols 1 d.questions_answers

/-- Fold one row dict's keys into an accumulated column list, keeping the
first occurrence of each key (how `pandas.DataFrame` orders the columns of
a list of dicts). -/
def addRowKeys (acc : List String) (row : List (String × Option CellValue)) :
    List String :=
  row.foldl (fun a kv => if a.contains kv.1 then a else a ++ [kv.1]) acc

/-- Column order of `pd.DataFrame(rows)`: keys across the row dicts in
first-appearance order. -/
def dfColumns (rows : List (List (String × Option CellValue))) : List String :=
  rows.foldl addRowKeys []

/-- The worksheet written by `df.to_excel(output_file, index=False)`:
a header row and the data cells; a missing key or a `None` value both
serialize to an empty cell. -/
structure Table where
  header : List String
  cells : List (List (Option CellValue))
  deriving DecidableEq, Repr

/-- Outcome of `export_to_excel`: either the early return that prints
"No data to export" and writes nothing, or the table written to the
output file. -/
inductive ExportResult where
  | noData
  | written (t : Table)
  deriving DecidableEq, Repr

/-- `DataAggregator.export_to_excel`: early-out on an empty `all_data`,
otherwise build one row dict per record, assemble the DataFrame and write
it without an index column. -/
def export_to_excel (all_data : List QuestionnaireRecord) : ExportResult :=
  if all_data.isEmpty then .noData
  else
    let rows := all_data.map buildRow
    let cols := dfColumns rows
    .written ⟨cols, rows.map (fun r => cols.map (fun c => (List.lookup c r).join))⟩

/-- The header the spec promises: `Application, Answered, App Responsible,
Deputy, Q1..Q17, COMM Q1..COMM Q17`. -/
def fixedHeader : List String :=
  ["Application", "Answered", "App Responsible", "Deputy",
   "Q1", "Q2", "Q3", "Q4", "Q5", "Q6", "Q7", "Q8", "Q9", "Q10", "Q11",
   "Q12", "Q13", "Q14", "Q15", "Q16", "Q17",
   "COMM Q1", "COMM Q2", "COMM Q3", "COMM Q4", "COMM Q5", "COMM Q6",
   "COMM Q7", "COMM Q8", "COMM Q9", "COMM Q10", "COMM Q11", "COMM Q12",
   "COMM Q13", "COMM Q14", "COMM Q15", "COMM Q16", "COMM Q17"]

/-- The key sequence generated by `qCols` on a list of length `n`. -/
def qNames : Nat → Nat → List String
  | _, 0 => []
  | i, n + 1 => ("Q" ++ toString i) :: qNames (i + 1) n

/-- The key sequence generated by `commCols` on a list of length `n`. -/
def commNames : Nat → Nat → List String
  | _, 0 => []
  | i, n + 1 => ("COMM Q" ++ toString i) :: commNames (i + 1) n

/-! ### Discovery and pipeline (`get_folders`, listings, `main`, local mode) -/

/-- One directory entry seen when listing a unit folder: its name, its
`is_file()` flag, and what `openpyxl.load_workbook` would yield for it. -/
structure SimFile where
  name : String
  isFile : Bool
  load : Except String Workbook

/-- One entry seen when listing the base path: its name, its `is_dir()`
flag, and the outcome of listing its files (`Except.error` models
`iterdir` raising). -/
structure SimFolder where
  name : String
  isDir : Bool
  files : Except String (List SimFile)

/-- `LocalFolderProcessor.get_folders`: directories not starting with `.`;
on an exception, print a warning and return `[]`. Result = (folders,
printed warnings). -/
def get_folders (basePath : String)
    (listing : Except String (List SimFolder)) : List SimFolder × List String :=
  match listing with
  | .ok entries => (entries.filter (fun f => f.isDir && !(strStartsWith f.name ".")), [])
  | .error e => ([], ["Error getting folders from " ++ basePath ++ ": " ++ e])

/-- `LocalFolderProcessor.get_excel_files_in_folder`: keep entries passing
`localIsExcelFile`; on an exception, print a warning and return `[]`. -/
def get_excel_files_sim (folderPath : String)
    (listing : Except String (List SimFile)) : List SimFile × List String :=
  match listing with
  | .ok fs => (fs.filter (fun f => localIsExcelFile f.isFile f.name), [])
  | .error e => ([], ["Error getting files from " ++ folderPath ++ ": " ++ e])

/-- `SharePointConnector.get_folders_in_path`: returns every child folder
(no filtering); on an exception, print a warning and return `[]`. Folders
are represented by their names. -/
def get_folders_in_path (folderPath : String)
    (listing : Except String (List String)) : List String × List String :=
  match listing with
  | .ok fs => (fs, [])
  | .error e => ([], ["Error getting folders from " ++ folderPath ++ ": " ++ e])

/-- `SharePointConnector.get_excel_files_in_folder`: keep file names
passing `remoteIsExcelFile`; on an exception, print a warning and return
`[]`. -/
def get_excel_files_in_folder_remote (folderUrl : String)
    (listing : Except String (List String)) : List String × List String :=
  match listing with
  | .ok names => (names.filter remoteIsExcelFile, [])
  | .error e => ([], ["Error getting files from " ++ folderUrl ++ ": " ++ e])

/-- `main`'s inner loop body for one Excel file (local mode): extract, and
either add the record to the aggregator or take the failure branch. The
second component counts the files for which the failure branch ran
("Failed to extract data from …"). -/
def processFile (acc : List QuestionnaireRecord × Nat) (folderName : String)
    (f : SimFile) : List QuestionnaireRecord × Nat :=
  match (extract_data f.load f.name folderName).result with
  | some d => (add_questionnaire acc.1 (some d), acc.2)
  | none => (acc.1, acc.2 + 1)

/-- `main`'s outer loop body for one folder (local mode): list the
folder's Excel files (collecting any warning), then run `processFile` over
them, threading the aggregator state. -/
def folderStep (acc : (List QuestionnaireRecord × Nat) × List String)
    (f : SimFolder) : (List QuestionnaireRecord × Nat) × List String :=
  let filesW := get_excel_files_sim f.name f.files
  (filesW.1.foldl (fun a file => processFile a f.name file) acc.1,
   acc.2 ++ filesW.2)

/-- `main`'s traversal (local mode): list folders, then for each folder
run `folderStep`; warnings from the listing calls are collected. -/
def runLocal (basePath : String) (listing : Except String (List SimFolder)) :
    (List QuestionnaireRecord × Nat) × List String :=
  let fw := get_folders basePath listing
  fw.1.foldl folderStep (([], 0), fw.2)

/-- Spec-side helper for comparing records up to question text: blank out
every `question` field, leaving answers, comments and metadata. -/
def eraseQuestions (r : QuestionnaireRecord) : QuestionnaireRecord :=
  { r with questions_answers :=
      r.questions_answers.map (fun qa => ⟨none, qa.answer, qa.comment⟩) }

/-! ### Concrete objects used by witnesses, counterexamples and scenarios -/

/-- A workbook all of whose cells are blank (and no read raises). -/
def wbBlank : Workbook := ⟨fun _ _ => .ok none⟩

/-- The record `extract_data` produces from `wbBlank` with unit name `"U"`. -/
def recBlank : QuestionnaireRecord :=
  ⟨"U", none, none, none, List.replicate 17 ⟨none, none, none⟩⟩

/-- A workbook that loads but whose every cell read raises — e.g. an
`.xlsx` whose active sheet is `None`, so `sheet['B1']` raises. -/
def wbRaises : Workbook :=
  ⟨fun _ _ => .error "TypeError: NoneType object is not subscriptable"⟩

/-- A workbook whose only non-blank cell is the question text in B3. -/
def wbWithQuestion : Workbook :=
  ⟨fun row col =>
    .ok (match row, col with
         | 3, "B" => some (CellValue.str "Is it documented?")
         | _, _ => none)⟩

/-- The spec scenario's `r1.xlsx`: B1="App1", C1="Alice", D1="Bob",
C3="Yes", D3="ok", everything else blank. -/
def wbScenario : Workbook :=
  ⟨fun row col =>
    .ok (match row, col with
         | 1, "B" => some (CellValue.str "App1")
         | 1, "C" => some (CellValue.str "Alice")
         | 1, "D" => some (CellValue.str "Bob")
         | 3, "C" => some (CellValue.str "Yes")
         | 3, "D" => some (CellValue.str "ok")
         | _, _ => none)⟩

/-- The spec scenario's base-path listing: `Unit-A` holding `r1.xlsx`,
`Unit-B` empty. -/
def scenarioListing : Except String (List SimFolder) :=
  .ok [⟨"Unit-A", true, .ok [⟨"r1.xlsx", true, .ok wbScenario⟩]⟩,
       ⟨"Unit-B", true, .ok []⟩]

/-- The record the scenario's `r1.xlsx` extracts to. -/
def recScenario : QuestionnaireRecord :=
  ⟨"Unit-A", some (CellValue.str "App1"), some (CellValue.str "Alice"),
   some (CellValue.str "Bob"),
   ⟨none, some (CellValue.str "Yes"), some (CellValue.str "ok")⟩ ::
     List.replicate 16 ⟨none, none, none⟩⟩

/-! ### Helper lemmas about the extractor -/

/-- A successful `readRows` call returns exactly `n` entries, entry `i`
holding the values of row `row + i`, columns B/C/D. -/
theorem readRows_ok (wb : Workbook) :
    ∀ (n row : Nat) (l : List QA), readRows wb row n = .ok l →
      l.length = n ∧
      ∀ i, i < n →
        wb.cell (row + i) "B" = .ok ((l.getD i ⟨none, none, none⟩).question) ∧
        wb.cell (row + i) "C" = .ok ((l.getD i ⟨none, none, none⟩).answer) ∧
        wb.cell (row + i) "D" = .ok ((l.getD i ⟨none, none, none⟩).comment) := by
  intro n
  induction n with
  | zero =>
    intro row l h
    simp only [readRows] at h
    cases h
    exact ⟨rfl, fun i hi => absurd hi (by omega)⟩
  | succ n ih =>
    intro row l h
    unfold readRows at h
    cases hB : wb.cell row "B" <;> rw [hB] at h
    case error e => simp at h
    case ok question =>
      cases hC : wb.cell row "C" <;> rw [hC] at h
      case error e => simp at h
      case ok answer =>
        cases hD : wb.cell row "D" <;> rw [hD] at h
        case error e => simp at h
        case ok comment =>
          cases hR : readRows wb (row + 1) n <;> rw [hR] at h
          case error e => simp at h
          case ok rest =>
            cases h
            obtain ⟨hlen, hcells⟩ := ih (row + 1) rest hR
            refine ⟨by simp [hlen], ?_⟩
            intro i hi
            cases i with
            | zero => simpa using ⟨hB, hC, hD⟩
            | succ j =>
              have harith : row + (j + 1) = (row + 1) + j := by omega
              rw [harith]
              simpa using hcells j (by omega)

/-- Inversion for a successful `extractBody`. -/
theorem extractBody_ok (wb : Workbook) (folder : String)
    (rec : QuestionnaireRecord) (h : extractBody wb folder = .ok rec) :
    wb.cell 1 "B" = .ok rec.application ∧
    wb.cell 1 "C" = .ok rec.responsible ∧
    wb.cell 1 "D" = .ok rec.deputy ∧
    readRows wb 3 17 = .ok rec.questions_answers ∧
    rec.source_folder = folder := by
  unfold extractBody at h
  cases hB : wb.cell 1 "B" <;> rw [hB] at h
  case error e => simp at h
  case ok application =>
    cases hC : wb.cell 1 "C" <;> rw [hC] at h
    case error e => simp at h
    case ok responsible =>
      cases hD : wb.cell 1 "D" <;> rw [hD] at h
      case error e => simp at h
      case ok deputy =>
        cases hR : readRows wb 3 17 <;> rw [hR] at h
        case error e => simp at h
        case ok qas =>
          cases h
          exact ⟨rfl, rfl, rfl, rfl, rfl⟩

/-- A `some` result of `extract_data` comes from a successful load and a
successful body. -/
theorem extract_data_some (load : Except String Workbook)
    (path folder : String) (rec : QuestionnaireRecord)
    (h : (extract_data load path folder).result = some rec) :
    ∃ wb, load = .ok wb ∧ extractBody wb folder = .ok rec := by
  cases load with
  | error e => simp [extract_data] at h
  | ok wb =>
    refine ⟨wb, rfl, ?_⟩
    cases hb : extractBody wb folder <;> simp [extract_data, hb] at h
    subst h
    rfl

/-- Shared helper: a `some` result of `extract_data` has 17 question rows
and entry `i` holds exactly the B/C/D cells of source row `3 + i`. -/
theorem extract_result_cells (load : Except String Workbook)
    (path folder : String) (rec : QuestionnaireRecord)
    (h : (extract_data load path folder).result = some rec) :
    rec.questions_answers.length = 17 ∧
    ∀ wb, load = Except.ok wb → ∀ i, i < 17 →
      wb.cell (3 + i) "B" = .ok ((rec.questions_answers.getD i ⟨none, none, none⟩).question) ∧
      wb.cell (3 + i) "C" = .ok ((rec.questions_answers.getD i ⟨none, none, none⟩).answer) ∧
      wb.cell (3 + i) "D" = .ok ((rec.questions_answers.getD i ⟨none, none, none⟩).comment) := by
  obtain ⟨wb, hload, hbody⟩ := extract_data_some load path folder rec h
  obtain ⟨_, _, _, hrows, _⟩ := extractBody_ok wb folder rec hbody
  obtain ⟨hlen, hcells⟩ := readRows_ok wb 17 3 rec.questions_answers hrows
  refine ⟨hlen, ?_⟩
  intro wb' hwb'
  rw [hload] at hwb'
  cases hwb'
  exact hcells

/-! ### Claim C10 -/

/-- Claim C10: for every state of the aggregator, `add_questionnaire`
with the absent extraction result (`none`, the failure signal of
`extract_data`) leaves the aggregated report unchanged — no row is
appended, so a failed file never contributes a record to the export. -/
theorem c10_add_none_unchanged (s : List QuestionnaireRecord) :
    add_questionnaire s none = s := rfl

/-! ### Claim C5 -/

/-- Claim C5: `export_to_excel` on an empty report writes nothing and
signals the no-op condition, which is distinguishable from the outcome of
any successful (non-empty) export. -/
theorem c5_empty_export_noop :
    export_to_excel [] = .noData ∧
    ∀ l : List QuestionnaireRecord, l ≠ [] → export_to_excel l ≠ .noData := by
  constructor
  · rfl
  · intro l hl
    cases l with
    | nil => exact absurd rfl hl
    | cons a t => simp [export_to_excel]

/-- Witness for C5 at a concrete non-empty report. -/
theorem c5_empty_export_noop_witness :
    export_to_excel [] = .noData ∧ export_to_excel [recBlank] ≠ .noData :=
  ⟨c5_empty_export_noop.1, c5_empty_export_noop.2 [recBlank] (by simp)⟩

/-! ### Claim C6 (corrected) -/

/-- Counterexample to claim C6 as stated: an execution of `extract_data`
on a workbook that loads successfully but whose first cell read raises
(e.g. the active sheet is `None`) reports a failure yet never reaches
`workbook.close()` — the `except` branch returns with the workbook still
open. -/
theorem c6_counterexample :
    (extract_data (.ok wbRaises) "r1.xlsx" "Unit-A").result = none ∧
    (extract_data (.ok wbRaises) "r1.xlsx" "Unit-A").closed = false := by
  decide

/-- Claim C6 amended: on a successfully loaded workbook, `extract_data`
closes the workbook exactly when extraction succeeds; on a read failure
after the open, the call returns the failure signal without closing. -/
theorem c6_amended_close_iff_success (wb : Workbook) (path folder : String) :
    (extract_data (.ok wb) path folder).closed =
      ((extract_data (.ok wb) path folder).result).isSome := by
  cases h : extractBody wb folder <;> simp [extract_data, h]

/-! ### Claim C4 -/

/-- Claim C4: whenever opening or reading the spreadsheet fails,
`extract_data` returns the absent result (no partial record — it is a
total function, so no exception escapes), prints exactly one failure
message carrying the file path and the underlying cause, and the
pipeline's failure branch runs exactly once for that file, incrementing
the failure count by one and leaving the aggregator unchanged. -/
theorem c4_failure_handling (load : Except String Workbook)
    (path folder : String)
    (hfail : (∃ e, load = .error e) ∨
             (∃ wb e, load = .ok wb ∧ extractBody wb folder = .error e)) :
    (extract_data load path folder).result = none ∧
    (∃ e, (extract_data load path folder).errors = [errMsg path e] ∧
          (load = .error e ∨ ∃ wb, load = .ok wb ∧ extractBody wb folder = .error e)) ∧
    (∀ acc : List QuestionnaireRecord × Nat,
        processFile acc folder ⟨path, true, load⟩ = (acc.1, acc.2 + 1)) := by
  rcases hfail with ⟨e, he⟩ | ⟨wb, e, hwb, hbody⟩
  · subst he
    exact ⟨rfl, ⟨e, rfl, Or.inl rfl⟩, fun acc => rfl⟩
  · subst hwb
    refine ⟨?_, ⟨e, ?_, Or.inr ⟨wb, rfl, hbody⟩⟩, ?_⟩
    · simp [extract_data, hbody]
    · simp [extract_data, hbody]
    · intro acc
      simp [processFile, extract_data, hbody]

/-- Witness for C4 at a concrete corrupt file (loading raises). -/
theorem c4_failure_handling_witness :
    (extract_data (.error "BadZipFile") "r1.xlsx" "Unit-A").result = none ∧
    (extract_data (.error "BadZipFile") "r1.xlsx" "Unit-A").errors =
      ["Error extracting data from r1.xlsx: BadZipFile"] ∧
    processFile ([], 0) "Unit-A" ⟨"r1.xlsx", true, .error "BadZipFile"⟩ = ([], 1) := by
  have h := c4_failure_handling (.error "BadZipFile") "r1.xlsx" "Unit-A"
    (Or.inl ⟨"BadZipFile", rfl⟩)
  exact ⟨h.1, by decide, h.2.2 ([], 0)⟩

/-! ### Claim C2 -/

/-- Claim C2: every record successfully produced by `extract_data` has a
`questions_answers` sequence of length exactly 17, entry `i` coming from
source row `3 + i` (rows 3 through 19 in fixed order), with blank cells
preserved as absent values rather than coerced to defaults. -/
theorem c2_seventeen_rows (load : Except String Workbook)
    (path folder : String) (rec : QuestionnaireRecord)
    (h : (extract_data load path folder).result = some rec) :
    rec.questions_answers.length = 17 ∧
    ∀ wb, load = Except.ok wb → ∀ i, i < 17 →
      wb.cell (3 + i) "B" = .ok ((rec.questions_answers.getD i ⟨none, none, none⟩).question) ∧
      wb.cell (3 + i) "C" = .ok ((rec.questions_answers.getD i ⟨none, none, none⟩).answer) ∧
      wb.cell (3 + i) "D" = .ok ((rec.questions_answers.getD i ⟨none, none, none⟩).comment) :=
  extract_result_cells load path folder rec h

/-- Witness for C2: a workbook whose cells are all blank still yields a
17-entry sequence of absent values. -/
theorem c2_seventeen_rows_witness :
    recBlank.questions_answers.length = 17 ∧
    wbBlank.cell 3 "C" = .ok ((recBlank.questions_answers.getD 0 ⟨none, none, none⟩).answer) := by
  have h := c2_seventeen_rows (.ok wbBlank) "r1.xlsx" "U" recBlank (by decide)
  exact ⟨h.1, (h.2 wbBlank rfl 0 (by omega)).2.1⟩

/-! ### Claim C9 (corrected) -/

/-- Counterexample to claim C9 as stated: the record returned by
`extract_data` does retain the question text read from column B — for a
file whose B3 holds "Is it documented?", the returned record's first
question row carries exactly that text. -/
theorem c9_counterexample :
    ((extract_data (.ok wbWithQuestion) "f.xlsx" "U").result.map
        (fun r => (r.questions_answers.getD 0 ⟨none, none, none⟩).question)) =
      some (some (CellValue.str "Is it documented?")) := by
  decide

/-- Claim C9 amended: the question text from column B of rows 3–19 is
retained in the returned record (entry `i` stores the B-cell of row
`3 + i`), but it never reaches the export: the row built by the exporter
is unchanged when every question field is blanked out. -/
theorem c9_amended_question_retained_not_exported :
    (∀ rec : QuestionnaireRecord, buildRow (eraseQuestions rec) = buildRow rec) ∧
    (∀ (wb : Workbook) (path folder : String) (rec : QuestionnaireRecord),
       (extract_data (.ok wb) path folder).result = some rec →
       ∀ i, i < 17 →
         wb.cell (3 + i) "B" =
           .ok ((rec.questions_answers.getD i ⟨none, none, none⟩).question)) := by
  constructor
  · intro rec
    have hq : ∀ (s : Nat) (l : List QA),
        qCols s (l.map (fun qa => (⟨none, qa.answer, qa.comment⟩ : QA))) = qCols s l := by
      intro s l
      induction l generalizing s with
      | nil => rfl
      | cons a t ih => simp [qCols, ih]
    have hc : ∀ (s : Nat) (l : List QA),
        commCols s (l.map (fun qa => (⟨none, qa.answer, qa.comment⟩ : QA))) = commCols s l := by
      intro s l
      induction l generalizing s with
      | nil => rfl
      | cons a t ih => simp [commCols, ih]
    simp [buildRow, eraseQuestions, hq, hc]
  · intro wb path folder rec h i hi
    exact ((extract_result_cells (.ok wb) path folder rec h).2 wb rfl i hi).1

/-- Witness for C9's amended claim at the concrete workbook `wbWithQuestion`. -/
theorem c9_amended_witness :
    buildRow (eraseQuestions recBlank) = buildRow recBlank ∧
    wbWithQuestion.cell 3 "B" = .ok (some (CellValue.str "Is it documented?")) := by
  have h := c9_amended_question_retained_not_exported
  refine ⟨h.1 recBlank, ?_⟩
  have h2 := h.2 wbWithQuestion "f.xlsx" "U"
    ⟨"U", none, none, none,
     ⟨some (CellValue.str "Is it documented?"), none, none⟩ ::
       List.replicate 16 ⟨none, none, none⟩⟩ (by decide) 0 (by omega)
  simpa using h2

/-! ### Claim C3 (corrected) -/

/-- Lowercasing preserves the ends-with relation. -/
theorem strEndsWith_lower (s p : String) (h : strEndsWith s p = true) :
    strEndsWith (strLower s) (strLower p) = true := by
  unfold strEndsWith at h ⊢
  rw [List.isSuffixOf_iff_suffix] at h ⊢
  show p.data.map Char.toLower <:+ s.data.map Char.toLower
  exact List.IsSuffix.map Char.toLower h

/-- The pathlib suffix of a name is a suffix of the name itself. -/
theorem pathSuffix_isSuffix (name : String) :
    (pathSuffix name).data <:+ name.data := by
  unfold pathSuffix
  cases rfindDot name.data with
  | none => exact List.nil_suffix
  | some i =>
    dsimp only
    split
    · exact List.drop_suffix i name.data
    · exact List.nil_suffix

/-- Every file kept by the local filter has a name which, lowercased, ends
in `.xlsx` or `.xls`, and does not begin with `~$`. -/
theorem localIsExcelFile_ci (b : Bool) (n : String)
    (h : localIsExcelFile b n = true) :
    (strEndsWith (strLower n) ".xlsx" || strEndsWith (strLower n) ".xls") = true ∧
    strStartsWith n "~$" = false := by
  unfold localIsExcelFile at h
  simp only [Bool.and_eq_true, Bool.or_eq_true, Bool.not_eq_true',
    decide_eq_true_eq] at h
  obtain ⟨⟨-, hsuf⟩, hts⟩ := h
  refine ⟨?_, hts⟩
  have hs : (strLower (pathSuffix n)).data <:+ (strLower n).data := by
    show (pathSuffix n).data.map Char.toLower <:+ n.data.map Char.toLower
    exact List.IsSuffix.map Char.toLower (pathSuffix_isSuffix n)
  rw [Bool.or_eq_true]
  rcases hsuf with h1 | h1
  · left
    rw [h1] at hs
    unfold strEndsWith
    rw [List.isSuffixOf_iff_suffix]
    exact hs
  · right
    rw [h1] at hs
    unfold strEndsWith
    rw [List.isSuffixOf_iff_suffix]
    exact hs

/-- Every file kept by the remote filter has a name which, lowercased,
ends in `.xlsx` or `.xls`, and does not begin with `~$`. -/
theorem remoteIsExcelFile_ci (n : String)
    (h : remoteIsExcelFile n = true) :
    (strEndsWith (strLower n) ".xlsx" || strEndsWith (strLower n) ".xls") = true ∧
    strStartsWith n "~$" = false := by
  unfold remoteIsExcelFile at h
  simp only [Bool.and_eq_true, Bool.or_eq_true, Bool.not_eq_true'] at h
  obtain ⟨hend, hts⟩ := h
  refine ⟨?_, hts⟩
  rw [Bool.or_eq_true]
  rcases hend with h1 | h1
  · left
    have h2 := strEndsWith_lower n ".xlsx" h1
    have hfix : strLower ".xlsx" = ".xlsx" := by decide
    rwa [hfix] at h2
  · right
    have h2 := strEndsWith_lower n ".xls" h1
    have hfix : strLower ".xls" = ".xls" := by decide
    rwa [hfix] at h2

/-- Counterexample to claim C3 as stated: `Report.XLSX` satisfies the
spec's case-insensitive criterion (and the local filter keeps it), but
the Remote variant's listing omits it — the remote extension test,
`str.endswith(('.xlsx', '.xls'))`, is case-sensitive. -/
theorem c3_counterexample :
    ciExcelKeep "Report.XLSX" = true ∧
    ((get_excel_files_sim "/u" (.ok [⟨"Report.XLSX", true, .ok wbBlank⟩])).1.map
        SimFile.name) = ["Report.XLSX"] ∧
    (get_excel_files_in_folder_remote "/u" (.ok ["Report.XLSX"])).1 = [] := by
  refine ⟨by decide, ?_, by decide⟩
  show (List.filter _ _).map SimFile.name = _
  rw [List.filter_cons]
  simp only [List.filter_nil]
  rw [if_pos (by decide)]
  rfl

/-- Claim C3 amended: both variants exclude every name beginning with
`~$`, and every file returned by either variant has an `.xlsx`/`.xls`
extension up to case; but only the Local variant matches extensions
case-insensitively (lowercased pathlib suffix), while the Remote variant
keeps exactly the names that end with lowercase `.xlsx` or `.xls`, so an
uppercase-extension file is listed locally but omitted remotely. -/
theorem c3_amended_filters :
    (∀ (p : String) (files : List SimFile) (f : SimFile),
        f ∈ (get_excel_files_sim p (.ok files)).1 ↔
          f ∈ files ∧ localIsExcelFile f.isFile f.name = true) ∧
    (∀ (u : String) (names : List String) (n : String),
        n ∈ (get_excel_files_in_folder_remote u (.ok names)).1 ↔
          n ∈ names ∧ remoteIsExcelFile n = true) ∧
    (∀ (b : Bool) (n : String), localIsExcelFile b n = true →
        (strEndsWith (strLower n) ".xlsx" || strEndsWith (strLower n) ".xls") = true ∧
        strStartsWith n "~$" = false) ∧
    (∀ n : String, remoteIsExcelFile n = true →
        (strEndsWith (strLower n) ".xlsx" || strEndsWith (strLower n) ".xls") = true ∧
        strStartsWith n "~$" = false) := by
  refine ⟨?_, ?_, localIsExcelFile_ci, remoteIsExcelFile_ci⟩
  · intro p files f
    simp [get_excel_files_sim, List.mem_filter]
  · intro u names n
    simp [get_excel_files_in_folder_remote, List.mem_filter]

/-- Witness for C3's amended claim at concrete names. -/
theorem c3_amended_filters_witness :
    ((strEndsWith (strLower "b.XLS") ".xlsx" || strEndsWith (strLower "b.XLS") ".xls") = true ∧
      strStartsWith "b.XLS" "~$" = false) ∧
    ((strEndsWith (strLower "r1.xlsx") ".xlsx" || strEndsWith (strLower "r1.xlsx") ".xls") = true ∧
      strStartsWith "r1.xlsx" "~$" = false) :=
  ⟨c3_amended_filters.2.2.1 true "b.XLS" (by decide),
   c3_amended_filters.2.2.2 "r1.xlsx" (by decide)⟩

/-! ### Claim C7 -/

/-- The records-and-failures component of the traversal never depends on
the warnings accumulated so far. -/
theorem foldl_folderStep_fst (L : List SimFolder) :
    ∀ (p : List QuestionnaireRecord × Nat) (w w' : List String),
      (L.foldl folderStep (p, w)).1 = (L.foldl folderStep (p, w')).1 := by
  induction L with
  | nil => intro p w w'; rfl
  | cons f t ih =>
    intro p w w'
    show (t.foldl folderStep (folderStep (p, w) f)).1 =
      (t.foldl folderStep (folderStep (p, w') f)).1
    have h1 : folderStep (p, w) f =
        ((folderStep (p, w) f).1, (folderStep (p, w) f).2) := rfl
    have h2 : folderStep (p, w') f =
        ((folderStep (p, w) f).1, (folderStep (p, w') f).2) := rfl
    rw [h1, h2]
    exact ih _ _ _

/-- Claim C7: every enumeration failure (unit listing or file listing,
local or remote) yields an empty sequence plus exactly one non-fatal
warning, and the traversal proceeds: a failed base-path listing completes
the run with zero units, zero records and zero failures, and a unit whose
file listing fails contributes nothing — the remaining units are
processed exactly as if it were absent. -/
theorem c7_enumeration_failures :
    (∀ b e, get_folders b (.error e) =
      ([], ["Error getting folders from " ++ b ++ ": " ++ e])) ∧
    (∀ p e, get_excel_files_sim p (.error e) =
      ([], ["Error getting files from " ++ p ++ ": " ++ e])) ∧
    (∀ p e, get_folders_in_path p (.error e) =
      ([], ["Error getting folders from " ++ p ++ ": " ++ e])) ∧
    (∀ b e, runLocal b (.error e) =
      (([], 0), ["Error getting folders from " ++ b ++ ": " ++ e])) ∧
    (∀ (b name e : String) (rest : List SimFolder),
        strStartsWith name "." = false →
        (runLocal b (.ok (⟨name, true, .error e⟩ :: rest))).1 =
          (runLocal b (.ok rest)).1) := by
  refine ⟨fun b e => rfl, fun p e => rfl, fun p e => rfl, fun b e => rfl, ?_⟩
  intro b name e rest hname
  show ((((⟨name, true, .error e⟩ : SimFolder) :: rest).filter
      (fun f => f.isDir && !(strStartsWith f.name "."))).foldl folderStep
        (([], 0), [])).1 =
    ((rest.filter (fun f => f.isDir && !(strStartsWith f.name "."))).foldl
      folderStep (([], 0), [])).1
  rw [List.filter_cons_of_pos (by simp [hname])]
  rw [List.foldl_cons]
  exact foldl_folderStep_fst _ _ _ _

/-- Witness for C7 at a concrete failing unit listing. -/
theorem c7_enumeration_failures_witness :
    (runLocal "b" (.ok [⟨"Unit-X", true, .error "PermissionError"⟩])).1 =
      (runLocal "b" (.ok [])).1 :=
  c7_enumeration_failures.2.2.2.2 "b" "Unit-X" "PermissionError" [] (by decide)

/-! ### Claim C1: helper lemmas about the exporter -/

theorem qCols_map_fst (l : List QA) :
    ∀ i, (qCols i l).map Prod.fst = qNames i l.length := by
  induction l with
  | nil => intro i; rfl
  | cons a t ih => intro i; simp [qCols, qNames, ih]

theorem commCols_map_fst (l : List QA) :
    ∀ i, (commCols i l).map Prod.fst = commNames i l.length := by
  induction l with
  | nil => intro i; rfl
  | cons a t ih => intro i; simp [commCols, commNames, ih]

theorem qCols_map_snd (l : List QA) :
    ∀ i, (qCols i l).map Prod.snd = l.map QA.answer := by
  induction l with
  | nil => intro i; rfl
  | cons a t ih => intro i; simp [qCols, ih]

theorem commCols_map_snd (l : List QA) :
    ∀ i, (commCols i l).map Prod.snd = l.map QA.comment := by
  induction l with
  | nil => intro i; rfl
  | cons a t ih => intro i; simp [commCols, ih]

/-- The key sequence of the row dict built for a 17-question record is
exactly the fixed header. -/
theorem buildRow_keys_17 (d : QuestionnaireRecord)
    (h : d.questions_answers.length = 17) :
    (buildRow d).map Prod.fst = fixedHeader := by
  have : (buildRow d).map Prod.fst =
      ["Application", "Answered", "App Responsible", "Deputy"] ++
        qNames 1 d.questions_answers.length ++
        commNames 1 d.questions_answers.length := by
    simp [buildRow, qCols_map_fst, commCols_map_fst]
  rw [this, h]
  rfl

/-- The value sequence of the row dict built for a record. -/
theorem buildRow_vals (d : QuestionnaireRecord) :
    (buildRow d).map Prod.snd =
      [d.application, d.responsible, d.responsible, d.deputy] ++
        d.questions_answers.map QA.answer ++
        d.questions_answers.map QA.comment := by
  simp [buildRow, qCols_map_snd, commCols_map_snd]

theorem fixedHeader_nodup : fixedHeader.Nodup := by decide

/-- Folding a row whose keys are already all present leaves the column
list unchanged. -/
theorem addRowKeys_subset :
    ∀ (row : List (String × Option CellValue)) (acc : List String),
      (∀ kv ∈ row, kv.1 ∈ acc) → addRowKeys acc row = acc := by
  intro row
  induction row with
  | nil => intro acc _; rfl
  | cons kv rest ih =>
    intro acc hsub
    show addRowKeys (if acc.contains kv.1 then acc else acc ++ [kv.1]) rest = acc
    rw [if_pos (List.elem_iff.mpr (hsub kv (by simp)))]
    exact ih acc (fun kv' h' => hsub kv' (by simp [h']))

/-- Folding a row with fresh, duplicate-free keys appends them in order. -/
theorem addRowKeys_disjoint :
    ∀ (row : List (String × Option CellValue)) (acc : List String),
      (row.map Prod.fst).Nodup → (∀ kv ∈ row, kv.1 ∉ acc) →
      addRowKeys acc row = acc ++ row.map Prod.fst := by
  intro row
  induction row with
  | nil => intro acc _ _; simp [addRowKeys]
  | cons kv rest ih =>
    intro acc hnd hdis
    show addRowKeys (if acc.contains kv.1 then acc else acc ++ [kv.1]) rest = _
    rw [if_neg (by
      intro hc
      exact hdis kv (by simp) (List.elem_iff.mp hc))]
    rw [List.map_cons, List.nodup_cons] at hnd
    have hres := ih (acc ++ [kv.1]) hnd.2 (fun kv' h' => by
      intro hmem
      rcases List.mem_append.mp hmem with hin | hin
      · exact hdis kv' (by simp [h']) hin
      · have : kv'.1 = kv.1 := by simpa using hin
        exact hnd.1 (this ▸ List.mem_map_of_mem Prod.fst h')
    )
    rw [hres]
    simp

theorem foldl_addRowKeys_const :
    ∀ (rows : List (List (String × Option CellValue))) (K : List String),
      (∀ r ∈ rows, addRowKeys K r = K) → rows.foldl addRowKeys K = K := by
  intro rows
  induction rows with
  | nil => intro K _; rfl
  | cons r rest ih =>
    intro K h
    show rest.foldl addRowKeys (addRowKeys K r) = K
    rw [h r (by simp)]
    exact ih K (fun r' h' => h r' (by simp [h']))

/-- When every row dict has the same duplicate-free key sequence `K`, the
DataFrame's columns are exactly `K`. -/
theorem dfColumns_const (r₀ : List (String × Option CellValue))
    (rows : List (List (String × Option CellValue))) (K : List String)
    (h₀ : r₀.map Prod.fst = K) (hrows : ∀ r ∈ rows, r.map Prod.fst = K)
    (hK : K.Nodup) : dfColumns (r₀ :: rows) = K := by
  show rows.foldl addRowKeys (addRowKeys [] r₀) = K
  have h1 : addRowKeys [] r₀ = K := by
    rw [addRowKeys_disjoint r₀ [] (h₀ ▸ hK) (fun kv _ => List.not_mem_nil _)]
    simpa using h₀
  rw [h1]
  refine foldl_addRowKeys_const rows K (fun r hr => ?_)
  refine addRowKeys_subset r K (fun kv hkv => ?_)
  rw [← hrows r hr]
  exact List.mem_map_of_mem Prod.fst hkv

/-- Looking each of a dict's own keys up in the dict returns its values,
provided the keys are duplicate-free. -/
theorem lookup_self_keys :
    ∀ row : List (String × Option CellValue), (row.map Prod.fst).Nodup →
      (row.map Prod.fst).map (fun c => List.lookup c row) =
        row.map (fun kv => some kv.2) := by
  intro row
  induction row with
  | nil => intro _; rfl
  | cons kv rest ih =>
    intro hnd
    rw [List.map_cons, List.nodup_cons] at hnd
    rw [List.map_cons, List.map_cons, List.map_cons]
    congr 1
    · show List.lookup kv.1 (kv :: rest) = some kv.2
      simp [List.lookup]
    · have hstep : ∀ c ∈ rest.map Prod.fst,
          List.lookup c (kv :: rest) = List.lookup c rest := by
        intro c hc
        have hne : kv.1 ≠ c := fun h => hnd.1 (h ▸ hc)
        have hbeq : (c == kv.1) = false := beq_eq_false_iff_ne.mpr (Ne.symm hne)
        simp [List.lookup, hbeq]
      rw [List.map_congr_left hstep]
      exact ih hnd.2

/-! ### Claim C1 -/

/-- Claim C1: exporting a non-empty report of well-formed records (17
question rows each, the shape `extract_data` always produces) writes one
table whose header is exactly `Application, Answered, App Responsible,
Deputy, Q1..Q17, COMM Q1..COMM Q17`, with one data row per record in
insertion order — no index column, no sorting, no deduplication — where
column `Qi` / `COMM Qi` holds the answer / comment of question-row index
`i - 1` of that record. -/
theorem c1_export_shape (all_data : List QuestionnaireRecord)
    (hne : all_data ≠ [])
    (h17 : ∀ r ∈ all_data, r.questions_answers.length = 17) :
    export_to_excel all_data =
      .written ⟨fixedHeader,
        all_data.map (fun r =>
          [r.application, r.responsible, r.responsible, r.deputy] ++
            r.questions_answers.map QA.answer ++
            r.questions_answers.map QA.comment)⟩ := by
  obtain ⟨a, rest, rfl⟩ := List.exists_cons_of_ne_nil hne
  have hcols : dfColumns ((a :: rest).map buildRow) = fixedHeader := by
    rw [List.map_cons]
    refine dfColumns_const _ _ _ (buildRow_keys_17 a (h17 a (by simp)))
      (fun r hr => ?_) fixedHeader_nodup
    obtain ⟨d, hd, rfl⟩ := List.mem_map.mp hr
    exact buildRow_keys_17 d (h17 d (by simp [hd]))
  have hred : export_to_excel (a :: rest) =
      .written ⟨dfColumns ((a :: rest).map buildRow),
        ((a :: rest).map buildRow).map
          (fun r => (dfColumns ((a :: rest).map buildRow)).map
            (fun c => (List.lookup c r).join))⟩ := rfl
  rw [hred, hcols]
  congr 1
  congr 1
  rw [List.map_map]
  refine List.map_congr_left (fun d hd => ?_)
  show (fixedHeader.map fun c => (List.lookup c (buildRow d)).join) = _
  have hkeys := buildRow_keys_17 d (h17 d hd)
  have hnd : ((buildRow d).map Prod.fst).Nodup := hkeys ▸ fixedHeader_nodup
  calc (fixedHeader.map fun c => (List.lookup c (buildRow d)).join)
      = ((buildRow d).map Prod.fst).map (fun c => (List.lookup c (buildRow d)).join) := by
        rw [hkeys]
    _ = (((buildRow d).map Prod.fst).map (fun c => List.lookup c (buildRow d))).map
          Option.join := by
        simp only [List.map_map]; rfl
    _ = ((buildRow d).map (fun kv => some kv.2)).map Option.join := by
        rw [lookup_self_keys (buildRow d) hnd]
    _ = (buildRow d).map Prod.snd := by
        simp only [List.map_map]; rfl
    _ = _ := buildRow_vals d

/-- Witness for C1 at the one-record scenario report. -/
theorem c1_export_shape_witness :
    export_to_excel [recScenario] =
      .written ⟨fixedHeader,
        [[some (CellValue.str "App1"), some (CellValue.str "Alice"),
          some (CellValue.str "Alice"), some (CellValue.str "Bob")] ++
          (some (CellValue.str "Yes") :: List.replicate 16 none) ++
          (some (CellValue.str "ok") :: List.replicate 16 none)]⟩ := by
  have h := c1_export_shape [recScenario] (by simp) (by decide)
  rw [h]
  decide

/-! ### Claim C8 -/

/-- Claim C8: for every extracted record the exported row's `Application`
column holds cell B1, `Deputy` holds D1, and `Answered` and
`App Responsible` both hold the responsible-party value C1; and in the
spec's concrete scenario (Unit-A with `r1.xlsx`: B1="App1", C1="Alice",
D1="Bob", C3="Yes", D3="ok"; Unit-B empty) the run aggregates exactly one
record with zero failures, Unit-B contributes nothing, and the export is
one row with Application="App1", Answered="Alice", App Responsible=
"Alice", Deputy="Bob", Q1="Yes", COMM Q1="ok" and every other Q/COMM cell
absent. -/
theorem c8_metadata_and_scenario :
    (∀ (wb : Workbook) (path folder : String) (rec : QuestionnaireRecord),
        (extract_data (.ok wb) path folder).result = some rec →
        wb.cell 1 "B" = .ok rec.application ∧
        wb.cell 1 "C" = .ok rec.responsible ∧
        wb.cell 1 "D" = .ok rec.deputy ∧
        (buildRow rec).take 4 =
          [("Application", rec.application), ("Answered", rec.responsible),
           ("App Responsible", rec.responsible), ("Deputy", rec.deputy)]) ∧
    (runLocal "base" scenarioListing).1 = ([recScenario], 0) ∧
    folderStep (([], 0), []) ⟨"Unit-B", true, .ok []⟩ = (([], 0), []) ∧
    export_to_excel [recScenario] =
      .written ⟨fixedHeader,
        [[some (CellValue.str "App1"), some (CellValue.str "Alice"),
          some (CellValue.str "Alice"), some (CellValue.str "Bob")] ++
          (some (CellValue.str "Yes") :: List.replicate 16 none) ++
          (some (CellValue.str "ok") :: List.replicate 16 none)]⟩ := by
  refine ⟨?_, by decide, by decide, by decide⟩
  intro wb path folder rec h
  obtain ⟨wb', hload, hbody⟩ := extract_data_some (.ok wb) path folder rec h
  injection hload with hww
  subst hww
  obtain ⟨hB, hC, hD, -, -⟩ := extractBody_ok wb folder rec hbody
  exact ⟨hB, hC, hD, rfl⟩

/-- Witness for C8's universally quantified part at the scenario workbook. -/
theorem c8_metadata_and_scenario_witness :
    wbScenario.cell 1 "B" = .ok recScenario.application ∧
    wbScenario.cell 1 "C" = .ok recScenario.responsible ∧
    wbScenario.cell 1 "D" = .ok recScenario.deputy := by
  have h := c8_metadata_and_scenario.1 wbScenario "r1.xlsx" "Unit-A" recScenario
    (by decide)
  exact ⟨h.1, h.2.1, h.2.2.1⟩

end FolderAggregator
